import Mathlib

/-!
Verification of the snapshot-persistence and rank-delta logic of the
store-user-spotify-data lambda.

The Lean definitions below are a shallow embedding of the Python sources:

* `src/src/models.py`    — `TimeRange` and the request dataclasses;
* `src/src/db_service.py` — `DBService` (credential update, snapshot read,
  snapshot write, rank-delta computation);
* `src/src/lambda_function.py` — `extract_user_spotify_data_from_event` and
  `lambda_handler`.

The relational store is modelled as an explicit in-memory state (one list of
rows per table); a MySQL connector failure is modelled by a boolean oracle
over the attempted operation.  Calendar dates are modelled as integers
(day numbers): the code only ever formats dates with a fixed day-granularity
format string and subtracts whole days, so integer day arithmetic is exact.
-/

namespace SpotifyLambda

/-- Source: `src/src/models.py`, `TimeRange(str, Enum)` with members
short_term, medium_term, long_term. -/
inductive TimeRange where
  | short
  | medium
  | long
deriving DecidableEq, Repr

/-- Value of the str-enum member, as used for SQL parameters. -/
def TimeRange.value : TimeRange → String
  | .short => "short_term"
  | .medium => "medium_term"
  | .long => "long_term"

/-- Source: `src/src/models.py`.  Calling `TimeRange(s)` in Python succeeds
exactly for the three member values and raises `ValueError` otherwise; this
is the enum-lookup function (the extraction code never calls it). -/
def TimeRange.ofString? (s : String) : Option TimeRange :=
  if s == "short_term" then some .short
  else if s == "medium_term" then some .medium
  else if s == "long_term" then some .long
  else none

/-- Source: `src/src/db_service.py`, `ItemType(str, Enum)`. -/
inductive ItemType where
  | artist
  | track
deriving DecidableEq, Repr

/-- Value of the str-enum member, interpolated into table / column names. -/
def ItemType.value : ItemType → String
  | .artist => "artist"
  | .track => "track"

/-- Modelled from the spec: `TopItem` is imported from `src.models` by
`src/src/db_service.py` but is missing from `src/src/models.py`; §3 of the
spec describes it (RankedItem: id, 1-based position, optional signed
position_change, is_new flag).  The constructor defaults
(`position_change` absent, `is_new` false) are pinned by the repository's
own test `test__store_top_items_calls_expected_mysql_methods_with_expected_params`,
which builds `TopItem(id, position)` and expects the stored row values
`(…, None, False, …)`. -/
structure TopItem where
  id : String
  position : Int
  position_change : Option Int := none
  is_new : Bool := false
deriving DecidableEq, Repr

/-- Modelled from the spec: `ComparisonIntervalDays` is imported from
`src.models` by `src/src/db_service.py` but is missing from
`src/src/models.py`; §3 of the spec: the number of days subtracted from the
collection date to find the snapshot to diff against, parameterized per
time window.  `DBService` reads it with `getattr(self.comparison_interval_days,
time_range.value)`, i.e. one attribute per time-range value. -/
structure ComparisonIntervalDays where
  short_term : Int
  medium_term : Int
  long_term : Int
deriving DecidableEq, Repr

/-- Attribute lookup `getattr(comparison_interval_days, time_range.value)`. -/
def ComparisonIntervalDays.forRange (c : ComparisonIntervalDays) : TimeRange → Int
  | .short => c.short_term
  | .medium => c.medium_term
  | .long => c.long_term

/-- One row of the `top_artist` / `top_track` table, with the columns named
in the INSERT statement of `DBService._store_top_items`
(`src/src/db_service.py` lines 87-97). -/
structure ItemRow where
  spotify_user_id : String
  item_id : String
  collected_date : Int
  position : Int
  position_change : Option Int
  is_new : Bool
  time_range : String
deriving DecidableEq, Repr

/-- One row of the `spotify_user` table (columns used by
`DBService.update_refresh_token`). -/
structure UserRow where
  id : String
  refresh_token : String
deriving DecidableEq, Repr

/-- The relational store: the three tables the source code touches. -/
structure DBState where
  spotify_user : List UserRow
  top_artist : List ItemRow
  top_track : List ItemRow
deriving DecidableEq, Repr

/-- Table selected by the dynamic table name `top_ item_type.value`. -/
def DBState.table (st : DBState) : ItemType → List ItemRow
  | .artist => st.top_artist
  | .track => st.top_track

/-- Replace the contents of one `top_` table. -/
def DBState.setTable (st : DBState) : ItemType → List ItemRow → DBState
  | .artist, rows => { st with top_artist := rows }
  | .track, rows => { st with top_track := rows }

/-- Source: `src/src/db_service.py` lines 32-49, `update_refresh_token`.
The UPDATE statement is `UPDATE spotify_user SET refresh_token = %s WHERE
id = %s` and the parameter tuple passed to `cursor.execute` is
`(user_id, refresh_token)` in that order, so the value written into the
`refresh_token` column is `user_id` and the row filter matches
`id = refresh_token`.  `fail` models a `mysql.connector.Error`: the method
rolls back (state unchanged) and raises `DBServiceException` with the
message below (the source message reads "user's"; the apostrophe is elided
here). -/
def update_refresh_token (fail : Bool) (st : DBState) (user_id refresh_token : String) :
    Except String DBState :=
  if fail then .error "Failed to update user refresh token"
  else .ok { st with
    spotify_user := st.spotify_user.map fun r =>
      if r.id = refresh_token then { r with refresh_token := user_id } else r }

/-- WHERE clause of the SELECT in `DBService._get_top_items`
(`src/src/db_service.py` lines 61-67): `spotify_user_id = %s AND
time_range = %s AND collected_date = %s`. -/
def rowMatches (user_id : String) (time_range : TimeRange) (collected_date : Int)
    (r : ItemRow) : Bool :=
  r.spotify_user_id == user_id && r.time_range == time_range.value &&
    r.collected_date == collected_date

/-- Source: `src/src/db_service.py` lines 51-77, `_get_top_items`:
SELECT the rows matching the key, ORDER BY position ASC, and project each
row to `TopItem(id=row[item_type_id], position=row[position])` (the other
`TopItem` fields keep their defaults).  `fail` models a connector error
during the query, raised as `DBServiceException`; an empty result set is
returned as the empty list, not an error. -/
def get_top_items (fail : Bool) (st : DBState) (user_id : String) (item_type : ItemType)
    (time_range : TimeRange) (collected_date : Int) : Except String (List TopItem) :=
  if fail then
    .error ("Failed to get top artists. User ID: " ++ user_id ++ ", time range: "
      ++ time_range.value)
  else
    let rows := ((st.table item_type).filter (rowMatches user_id time_range collected_date)).insertionSort
      (fun a b => a.position ≤ b.position)
    .ok (rows.map fun r => { id := r.item_id, position := r.position })

/-- Row built for one item by the INSERT in `DBService._store_top_items`
(`src/src/db_service.py` lines 99-110): values
`(user_id, item.id, collected_date, item.position, item.position_change,
item.is_new, time_range.value)`. -/
def storeRow (user_id : String) (item_type : ItemType) (time_range : TimeRange)
    (collected_date : Int) (item : TopItem) : ItemRow :=
  { spotify_user_id := user_id
    item_id := item.id
    collected_date := collected_date
    position := item.position
    position_change := item.position_change
    is_new := item.is_new
    time_range := time_range.value }

/-- Source: `src/src/db_service.py` lines 79-123, `_store_top_items`:
one INSERT per item in a single `executemany` followed by `commit`
(append-only: rows are added, nothing replaced).  On a connector error the
transaction is rolled back (state unchanged) and `DBServiceException` is
raised. -/
def store_top_items (fail : Bool) (st : DBState) (user_id : String)
    (top_items : List TopItem) (item_type : ItemType) (time_range : TimeRange)
    (collected_date : Int) : Except String DBState :=
  if fail then .error "Failed to store top items"
  else .ok (st.setTable item_type
    (st.table item_type ++ top_items.map (storeRow user_id item_type time_range collected_date)))

/-- Source: `src/src/db_service.py` lines 125-140, `_calculate_position_changes`.
A pandas left merge of the current list with `prev[[id, position]]` on `id`:
the output has one row per current row and matching previous row, in current
order (left-merge order), with `position_change = position_prev - position`
and `is_new = isna(position_change)`; a current row without a match yields a
single row with `position_change` NaN (replaced by None) and `is_new` true.
An empty current or previous list gives an empty DataFrame with no columns,
so the column selections raise (modelled as `none`); the caller never passes
an empty previous list. -/
def calculate_position_changes (items_current items_prev : List TopItem) :
    Option (List TopItem) :=
  if items_current.isEmpty || items_prev.isEmpty then none
  else some (items_current.flatMap fun item =>
    match items_prev.filter (fun p => p.id == item.id) with
    | [] => [{ id := item.id, position := item.position, position_change := none,
               is_new := true }]
    | ms => ms.map fun p =>
        { id := item.id, position := item.position,
          position_change := some (p.position - item.position), is_new := false })

/-- One `DBService` call against the underlying store, as attempted by the
handler: the credential UPDATE, the previous-snapshot SELECT, or the
snapshot INSERT batch for one (category, time-window) triple. -/
inductive DBOp where
  | updateToken (user_id refresh_token : String)
  | getPrev (user_id : String) (item_type : ItemType) (time_range : TimeRange)
      (collected_date : Int)
  | storeItems (user_id : String) (item_type : ItemType) (time_range : TimeRange)
      (collected_date : Int)
deriving DecidableEq, Repr

/-- Outcome of running (part of) an invocation: `err` is the first raised
error if any, `state` the resulting store contents, and `trace` the list of
store operations attempted, in order. -/
structure ExecResult where
  err : Option String
  state : DBState
  trace : List DBOp
deriving DecidableEq, Repr

/-- Source: `src/src/db_service.py` lines 142-170,
`_store_top_items_with_position_changes`: look up the previous snapshot at
`collected_date` shifted back by the comparison interval for the time
range; if it is non-empty, enrich the current items with
`_calculate_position_changes`, otherwise store the current items as they
are; then insert via `_store_top_items`.  The failure oracle decides
whether each underlying store operation raises. -/
def store_top_items_with_position_changes (cid : ComparisonIntervalDays)
    (oracle : DBOp → Bool) (st : DBState) (user_id : String) (top_items : List TopItem)
    (item_type : ItemType) (time_range : TimeRange) (collected_date : Int) : ExecResult :=
  let prev_date := collected_date - cid.forRange time_range
  let gOp := DBOp.getPrev user_id item_type time_range prev_date
  match get_top_items (oracle gOp) st user_id item_type time_range prev_date with
  | .error e => ⟨some e, st, [gOp]⟩
  | .ok top_items_prev =>
    match (if top_items_prev.isEmpty then some top_items
           else calculate_position_changes top_items top_items_prev) with
    | none => ⟨some "KeyError raised by pandas on an empty frame", st, [gOp]⟩
    | some top_items_to_store =>
      let sOp := DBOp.storeItems user_id item_type time_range collected_date
      match store_top_items (oracle sOp) st user_id top_items_to_store item_type
          time_range collected_date with
      | .error e => ⟨some e, st, [gOp, sOp]⟩
      | .ok st2 => ⟨none, st2, [gOp, sOp]⟩

/-- One per-time-range entry of the decoded request handed to
`store_top_artists` / `store_top_tracks` (models the `TopArtistsData` /
`TopTracksData` dataclasses: a ranked item list plus its time range). -/
structure RankedEntry where
  top_items : List TopItem
  time_range : TimeRange
deriving DecidableEq, Repr

/-- Source: `src/src/models.py`, `TopGenre` dataclass. -/
structure TopGenre where
  name : String
  count : Int
deriving DecidableEq, Repr

/-- Source: `src/src/models.py`, `TopEmotion` dataclass.  The `percentage`
field is a Python float that the code in scope never computes with (the
genre/emotion store methods are missing from `DBService`), so its value is
carried opaquely as its literal text. -/
structure TopEmotion where
  name : String
  percentage : String
deriving DecidableEq, Repr

/-- Source: `src/src/models.py`, `TopGenresData` dataclass. -/
structure GenresEntry where
  top_genres : List TopGenre
  time_range : TimeRange
deriving DecidableEq, Repr

/-- Source: `src/src/models.py`, `TopEmotionsData` dataclass. -/
structure EmotionsEntry where
  top_emotions : List TopEmotion
  time_range : TimeRange
deriving DecidableEq, Repr

/-- Decoded request consumed by `lambda_handler` (the shape the handler and
the repository's tests use: `user_id`, optional `refresh_token`, and one
entry list per category).  Note `src/src/models.py` declares
`UserSpotifyData` without a `user_id` field and with a non-optional
`refresh_token`, while `src/src/lambda_function.py` constructs it with
`user_id=...` and tests set `refresh_token = None`; the model follows the
handler's usage. -/
structure UserSpotifyData where
  user_id : String
  refresh_token : Option String
  top_artists_data : List RankedEntry
  top_tracks_data : List RankedEntry
  top_genres_data : List GenresEntry
  top_emotions_data : List EmotionsEntry
deriving DecidableEq, Repr

/-- One of the per-category `for` loops of step 3 of `lambda_handler`
(`src/src/lambda_function.py` lines 110-125): each entry drives
`store_top_artists` / `store_top_tracks`, which delegate to
`_store_top_items_with_position_changes` with the corresponding `ItemType`;
the first raised error aborts the remaining entries. -/
def run_store_loop (cid : ComparisonIntervalDays) (oracle : DBOp → Bool)
    (item_type : ItemType) (user_id : String) (collected_date : Int) :
    DBState → List RankedEntry → ExecResult
  | st, [] => ⟨none, st, []⟩
  | st, entry :: rest =>
    let r := store_top_items_with_position_changes cid oracle st user_id entry.top_items
      item_type entry.time_range collected_date
    match r.err with
    | some e => ⟨some e, r.state, r.trace⟩
    | none =>
      let r2 := run_store_loop cid oracle item_type user_id collected_date r.state rest
      ⟨r2.err, r2.state, r.trace ++ r2.trace⟩

/-- Step 3 of `lambda_handler` (`src/src/lambda_function.py` lines 106-143):
the artist loop, then the track loop, then the genre and emotion loops.
`DBService` (`src/src/db_service.py`) defines no `store_top_genres` or
`store_top_emotions` method, so as soon as a genre (resp. emotion) entry is
iterated, the attribute lookup `db_service.store_top_genres` raises
`AttributeError` (if the corresponding list is empty the loop body never
runs and no error is raised). -/
def lambda_handler_snapshots (cid : ComparisonIntervalDays) (oracle : DBOp → Bool)
    (st : DBState) (data : UserSpotifyData) (collected_date : Int) : ExecResult :=
  let ra := run_store_loop cid oracle .artist data.user_id collected_date st
    data.top_artists_data
  match ra.err with
  | some e => ⟨some e, ra.state, ra.trace⟩
  | none =>
    let rt := run_store_loop cid oracle .track data.user_id collected_date ra.state
      data.top_tracks_data
    match rt.err with
    | some e => ⟨some e, rt.state, ra.trace ++ rt.trace⟩
    | none =>
      match data.top_genres_data with
      | _ :: _ => ⟨some "AttributeError: DBService object has no attribute store_top_genres",
          rt.state, ra.trace ++ rt.trace⟩
      | [] =>
        match data.top_emotions_data with
        | _ :: _ => ⟨some "AttributeError: DBService object has no attribute store_top_emotions",
            rt.state, ra.trace ++ rt.trace⟩
        | [] => ⟨none, rt.state, ra.trace ++ rt.trace⟩

/-- Source: `src/src/lambda_function.py` lines 81-149, `lambda_handler`
(the body of the `try` block, acting on an already decoded request):
step 2 updates the refresh token when one is present — a failure there
propagates out of the `try` and ends the invocation before any snapshot
step — then step 3 runs the per-category store loops with one shared
collection date.  Two integration defects of the source are recorded
elsewhere rather than modelled here: the source constructs
`DBService(connection)` although `DBService.__init__` also requires
`comparison_interval_days` (the model passes the interval configuration the
service requires), and `src/src/models.py` does not define the `TopItem`
class that `src/src/db_service.py` imports (see the `TopItem` model above);
both are covered by the C3 result. -/
def lambda_handler (cid : ComparisonIntervalDays) (oracle : DBOp → Bool) (st : DBState)
    (data : UserSpotifyData) (collected_date : Int) : ExecResult :=
  match data.refresh_token with
  | none => lambda_handler_snapshots cid oracle st data collected_date
  | some rt =>
    let op := DBOp.updateToken data.user_id rt
    match update_refresh_token (oracle op) st data.user_id rt with
    | .error e => ⟨some e, st, [op]⟩
    | .ok st1 =>
      let r := lambda_handler_snapshots cid oracle st1 data collected_date
      ⟨r.err, r.state, op :: r.trace⟩

/-- Raw artist / track dict of the inbound message (`id`, `position` keys),
which `extract_user_spotify_data_from_event` copies into a `TopArtist` /
`TopTrack` (`src/src/models.py`: dataclasses with exactly these two
fields). -/
structure RawRanked where
  id : String
  position : Int
deriving DecidableEq, Repr

/-- Raw per-time-range artist / track section of the inbound message body.
The `time_range` value is an arbitrary string exactly as it appears in the
message. -/
structure RawRankedSection where
  time_range : String
  items : List RawRanked
deriving DecidableEq, Repr

/-- Raw per-time-range genre section of the inbound message body. -/
structure RawGenresSection where
  time_range : String
  genres : List TopGenre
deriving DecidableEq, Repr

/-- Raw per-time-range emotion section of the inbound message body. -/
structure RawEmotionsSection where
  time_range : String
  emotions : List TopEmotion
deriving DecidableEq, Repr

/-- Body of one queue record, after `json.loads`, with the keys the
extraction reads present (a missing key raises `KeyError`, which the model
does not need to distinguish for the claims at hand); `refresh_token` may
be JSON null. -/
structure RawBody where
  user_id : String
  refresh_token : Option String
  top_artists_data : List RawRankedSection
  top_tracks_data : List RawRankedSection
  top_genres_data : List RawGenresSection
  top_emotions_data : List RawEmotionsSection
deriving DecidableEq, Repr

/-- The Lambda event: `event[Records]` is a list of records; the extraction
reads only `Records[0]`. -/
structure RawEvent where
  records : List RawBody
deriving DecidableEq, Repr

/-- Decoded request exactly as `extract_user_spotify_data_from_event`
produces it: every `time_range` is the raw string copied from the message,
never parsed through the `TimeRange` enum (compare `UserSpotifyData` above,
the shape `DBService` expects, whose time ranges are enum members). -/
structure UserSpotifyDataRaw where
  user_id : String
  refresh_token : Option String
  top_artists_data : List RawRankedSection
  top_tracks_data : List RawRankedSection
  top_genres_data : List RawGenresSection
  top_emotions_data : List RawEmotionsSection
deriving DecidableEq, Repr

/-- Source: `src/src/lambda_function.py` lines 24-78,
`extract_user_spotify_data_from_event`: take `Records[0]` (an empty
`Records` list raises `IndexError`), read the body fields, and rebuild each
per-category entry item by item.  Every `time_range` is copied verbatim
(`time_range = entry[time_range_key]`); no check against the `TimeRange`
enum members is performed anywhere in the function, so no value of
`time_range` can make it raise. -/
def extract_user_spotify_data_from_event (event : RawEvent) :
    Except String UserSpotifyDataRaw :=
  match event.records with
  | [] => .error "IndexError: list index out of range"
  | body :: _ =>
    .ok { user_id := body.user_id
          refresh_token := body.refresh_token
          top_artists_data := body.top_artists_data.map fun s =>
            { time_range := s.time_range
              items := s.items.map fun a => { id := a.id, position := a.position } }
          top_tracks_data := body.top_tracks_data.map fun s =>
            { time_range := s.time_range
              items := s.items.map fun a => { id := a.id, position := a.position } }
          top_genres_data := body.top_genres_data.map fun s =>
            { time_range := s.time_range
              genres := s.genres.map fun g => { name := g.name, count := g.count } }
          top_emotions_data := body.top_emotions_data.map fun s =>
            { time_range := s.time_range
              emotions := s.emotions.map fun e =>
                { name := e.name, percentage := e.percentage } } }

/-- Per-item rank-delta rule as the spec states it (§4.1): when a matching
previous entry exists, `position_change` is previous position minus current
position and `is_new` is false; when none exists, `position_change` is
absent and `is_new` is true.  Stated over `find?`, which returns the unique
matching entry whenever the previous ids are pairwise distinct.  This is
the spec-side definition against which the source-side
`calculate_position_changes` is compared. -/
def deltaItem (items_prev : List TopItem) (item : TopItem) : TopItem :=
  match items_prev.find? (fun q => q.id == item.id) with
  | some q => { id := item.id, position := item.position,
                position_change := some (q.position - item.position), is_new := false }
  | none => { id := item.id, position := item.position, position_change := none,
              is_new := true }

lemma deltaItem_id (items_prev : List TopItem) (item : TopItem) :
    (deltaItem items_prev item).id = item.id := by
  cases h : items_prev.find? (fun q => q.id == item.id) <;> simp [deltaItem, h]

lemma deltaItem_position (items_prev : List TopItem) (item : TopItem) :
    (deltaItem items_prev item).position = item.position := by
  cases h : items_prev.find? (fun q => q.id == item.id) <;> simp [deltaItem, h]

/-- In a list whose ids are pairwise distinct, two members with the same id
are the same element. -/
lemma eq_of_mem_of_id_eq {p : List TopItem}
    (hu : p.Pairwise (fun a b => a.id ≠ b.id)) {a b : TopItem}
    (ha : a ∈ p) (hb : b ∈ p) (hid : a.id = b.id) : a = b := by
  induction p with
  | nil => cases ha
  | cons x xs ih =>
    rcases List.pairwise_cons.mp hu with ⟨hx, hxs⟩
    rcases List.mem_cons.mp ha with rfl | ha' <;> rcases List.mem_cons.mp hb with h | hb'
    · exact h.symm
    · exact absurd hid (hx _ hb')
    · exact absurd hid.symm (h ▸ hx _ ha')
    · exact ih hxs ha' hb'

/-- With pairwise-distinct ids, filtering by one id yields the `toList` of
`find?`: the empty list or the unique match. -/
lemma filter_id_eq_find_toList (p : List TopItem)
    (hu : p.Pairwise (fun a b => a.id ≠ b.id)) (x : String) :
    p.filter (fun q => q.id == x) = (p.find? (fun q => q.id == x)).toList := by
  induction p with
  | nil => rfl
  | cons q qs ih =>
    rcases List.pairwise_cons.mp hu with ⟨hq, hqs⟩
    by_cases h : q.id = x
    · have hb : (q.id == x) = true := beq_iff_eq.mpr h
      have hnil : qs.filter (fun y => y.id == x) = [] := by
        refine List.filter_eq_nil_iff.mpr fun y hy => ?_
        simpa [beq_iff_eq] using fun e => (hq y hy) (h.trans e.symm)
      simp [List.filter_cons, List.find?_cons, hb, hnil]
    · have hb : (q.id == x) = false := by simpa [beq_iff_eq] using h
      simp [List.filter_cons, List.find?_cons, hb, ih hqs]

/-- A `flatMap` whose function always produces a singleton is a `map`. -/
lemma flatMap_singleton_eq_map {α β : Type} (f : α → List β) (g : α → β)
    (h : ∀ a, f a = [g a]) (l : List α) : l.flatMap f = l.map g := by
  induction l with
  | nil => rfl
  | cons a l ih => simp [List.flatMap_cons, h a, ih]

/-- Characterization of the pandas left merge: for non-empty inputs whose
previous ids are pairwise distinct, the engine maps the spec-side per-item
rule over the current list, in order. -/
lemma calculate_position_changes_eq_map {items_current items_prev : List TopItem}
    (hc : items_current ≠ []) (hp : items_prev ≠ [])
    (hu : items_prev.Pairwise (fun a b => a.id ≠ b.id)) :
    calculate_position_changes items_current items_prev
      = some (items_current.map (deltaItem items_prev)) := by
  have hcond : (items_current.isEmpty || items_prev.isEmpty) = false := by
    simp [List.isEmpty_iff, hc, hp]
  have key : ∀ item : TopItem,
      (match items_prev.filter (fun p => p.id == item.id) with
       | [] => [({ id := item.id, position := item.position, position_change := none,
                   is_new := true } : TopItem)]
       | ms => ms.map fun p =>
           { id := item.id, position := item.position,
             position_change := some (p.position - item.position), is_new := false })
      = [deltaItem items_prev item] := by
    intro item
    rw [filter_id_eq_find_toList items_prev hu item.id]
    cases hfind : items_prev.find? (fun q => q.id == item.id) with
    | none => simp [deltaItem, hfind, Option.toList]
    | some q => simp [deltaItem, hfind, Option.toList]
  simp only [calculate_position_changes, hcond, Bool.false_eq_true, if_false]
  exact congrArg some (flatMap_singleton_eq_map _ _ key items_current)

/-- With pairwise-distinct ids, `find?` by id is invariant under
permutation of the searched list. -/
lemma find_id_eq_of_perm {p p2 : List TopItem} (hperm : p.Perm p2)
    (hu : p.Pairwise (fun a b => a.id ≠ b.id)) (x : String) :
    p.find? (fun q => q.id == x) = p2.find? (fun q => q.id == x) := by
  cases h : p.find? (fun q => q.id == x) with
  | none =>
    refine (List.find?_eq_none.mpr fun y hy => ?_).symm
    exact List.find?_eq_none.mp h y (hperm.mem_iff.mpr hy)
  | some q =>
    have hq_mem : q ∈ p := List.mem_of_find?_eq_some h
    have hq_pred := List.find?_some h
    cases h2 : p2.find? (fun q => q.id == x) with
    | none =>
      exact absurd hq_pred (List.find?_eq_none.mp h2 q (hperm.mem_iff.mp hq_mem))
    | some q2 =>
      have hq2_mem : q2 ∈ p := hperm.mem_iff.mpr (List.mem_of_find?_eq_some h2)
      have hq2_pred := List.find?_some h2
      have : q2 = q := eq_of_mem_of_id_eq hu hq2_mem hq_mem
        ((beq_iff_eq.mp hq2_pred).trans (beq_iff_eq.mp hq_pred).symm)
      rw [this]

/-- Claim C1: for every non-empty current list and non-empty previous list with
unique ids, the rank-delta computation returns one output per current item,
in order: a current item with a previous entry of the same id gets
position_change = previous.position - current.position and is_new = false,
and a current item with no matching previous id gets position_change absent
and is_new = true (this is exactly `deltaItem`, the per-item rule of the
spec). -/
theorem C1_rank_delta_per_item {items_current items_prev : List TopItem}
    (hc : items_current ≠ []) (hp : items_prev ≠ [])
    (hu : items_prev.Pairwise (fun a b => a.id ≠ b.id)) :
    calculate_position_changes items_current items_prev
      = some (items_current.map (deltaItem items_prev)) :=
  calculate_position_changes_eq_map hc hp hu

/-- Witness for C1 at the concrete scenario of spec §8. -/
theorem C1_rank_delta_per_item_witness :
    calculate_position_changes
      [⟨"1", 1, none, false⟩, ⟨"2", 2, none, false⟩, ⟨"3", 3, none, false⟩]
      [⟨"1", 3, none, false⟩, ⟨"2", 2, none, false⟩, ⟨"4", 3, none, false⟩]
    = some [⟨"1", 1, some 2, false⟩, ⟨"2", 2, some 0, false⟩, ⟨"3", 3, none, true⟩] :=
  (C1_rank_delta_per_item (by decide) (by decide) (by decide)).trans (by decide)

/-- Claim C10: under the same hypotheses as C1, the engine only fills in
position_change and is_new: the output has the length of the current list
and the i-th output item keeps the i-th current item's id and position. -/
theorem C10_engine_preserves_id_and_position {items_current items_prev : List TopItem}
    (hc : items_current ≠ []) (hp : items_prev ≠ [])
    (hu : items_prev.Pairwise (fun a b => a.id ≠ b.id)) :
    ∃ out, calculate_position_changes items_current items_prev = some out ∧
      out.length = items_current.length ∧
      ∀ (i : Nat) (h1 : i < out.length) (h2 : i < items_current.length),
        (out.get ⟨i, h1⟩).id = (items_current.get ⟨i, h2⟩).id ∧
        (out.get ⟨i, h1⟩).position = (items_current.get ⟨i, h2⟩).position := by
  refine ⟨items_current.map (deltaItem items_prev),
    calculate_position_changes_eq_map hc hp hu, List.length_map _ _, ?_⟩
  intro i h1 h2
  simp only [List.get_eq_getElem, List.getElem_map]
  exact ⟨deltaItem_id _ _, deltaItem_position _ _⟩

/-- Witness for C10 at the concrete scenario of spec §8. -/
theorem C10_engine_preserves_id_and_position_witness :
    ∃ out, calculate_position_changes
        [⟨"1", 1, none, false⟩, ⟨"2", 2, none, false⟩, ⟨"3", 3, none, false⟩]
        [⟨"1", 3, none, false⟩, ⟨"2", 2, none, false⟩, ⟨"4", 3, none, false⟩]
      = some out ∧
      out.length = ([⟨"1", 1, none, false⟩, ⟨"2", 2, none, false⟩,
        ⟨"3", 3, none, false⟩] : List TopItem).length ∧
      ∀ (i : Nat) (h1 : i < out.length)
        (h2 : i < ([⟨"1", 1, none, false⟩, ⟨"2", 2, none, false⟩,
          ⟨"3", 3, none, false⟩] : List TopItem).length),
        (out.get ⟨i, h1⟩).id = (([⟨"1", 1, none, false⟩, ⟨"2", 2, none, false⟩,
          ⟨"3", 3, none, false⟩] : List TopItem).get ⟨i, h2⟩).id ∧
        (out.get ⟨i, h1⟩).position = (([⟨"1", 1, none, false⟩, ⟨"2", 2, none, false⟩,
          ⟨"3", 3, none, false⟩] : List TopItem).get ⟨i, h2⟩).position :=
  C10_engine_preserves_id_and_position (by decide) (by decide) (by decide)

/-- Claim C8 fails as stated: the claim quantifies over every previous list, but
for a previous list containing a duplicated id the pandas left merge emits
one output row per matching previous row, so the output depends on the
order of the previous list (and has more rows than the current list); and
for an empty previous list the engine raises instead of producing output.
Concretely, the two orderings of the duplicated previous list below are
permutations of each other yet give different outputs. -/
theorem C8_counterexample :
    ([⟨"x", 2, none, false⟩, ⟨"x", 3, none, false⟩] : List TopItem).Perm
      [⟨"x", 3, none, false⟩, ⟨"x", 2, none, false⟩] ∧
    calculate_position_changes [⟨"x", 1, none, false⟩]
        [⟨"x", 2, none, false⟩, ⟨"x", 3, none, false⟩]
      ≠ calculate_position_changes [⟨"x", 1, none, false⟩]
        [⟨"x", 3, none, false⟩, ⟨"x", 2, none, false⟩] ∧
    calculate_position_changes [⟨"x", 1, none, false⟩] [] = none :=
  ⟨by decide, by decide, rfl⟩

/-- Claim C8 amended: for every non-empty current list and non-empty previous
list whose ids are pairwise distinct, the output is in the same order as
the current list (its id sequence equals the current id sequence) and is
identical for any permutation of the previous list. -/
theorem C8_order_preservation_amended {items_current items_prev items_prev2 : List TopItem}
    (hc : items_current ≠ []) (hp : items_prev ≠ [])
    (hu : items_prev.Pairwise (fun a b => a.id ≠ b.id))
    (hperm : items_prev.Perm items_prev2) :
    calculate_position_changes items_current items_prev
      = calculate_position_changes items_current items_prev2 ∧
    ∃ out, calculate_position_changes items_current items_prev = some out ∧
      out.map TopItem.id = items_current.map TopItem.id := by
  have hp2 : items_prev2 ≠ [] := fun h => hp (h ▸ hperm).eq_nil
  have hsymm : ∀ {x y : TopItem}, x.id ≠ y.id → y.id ≠ x.id := fun h e => h e.symm
  have hu2 : items_prev2.Pairwise (fun a b => a.id ≠ b.id) :=
    (hperm.pairwise_iff hsymm).mp hu
  have hdelta : ∀ item, deltaItem items_prev item = deltaItem items_prev2 item := by
    intro item
    unfold deltaItem
    rw [find_id_eq_of_perm hperm hu item.id]
  constructor
  · rw [calculate_position_changes_eq_map hc hp hu,
      calculate_position_changes_eq_map hc hp2 hu2]
    exact congrArg some (List.map_congr_left fun a _ => hdelta a)
  · refine ⟨items_current.map (deltaItem items_prev),
      calculate_position_changes_eq_map hc hp hu, ?_⟩
    rw [List.map_map]
    exact List.map_congr_left fun a _ => deltaItem_id items_prev a

/-- Witness for the amended C8 at the spec §8 scenario with the previous
list reversed. -/
theorem C8_order_preservation_amended_witness :
    calculate_position_changes
        [⟨"1", 1, none, false⟩, ⟨"2", 2, none, false⟩, ⟨"3", 3, none, false⟩]
        [⟨"1", 3, none, false⟩, ⟨"2", 2, none, false⟩, ⟨"4", 3, none, false⟩]
      = calculate_position_changes
        [⟨"1", 1, none, false⟩, ⟨"2", 2, none, false⟩, ⟨"3", 3, none, false⟩]
        [⟨"4", 3, none, false⟩, ⟨"2", 2, none, false⟩, ⟨"1", 3, none, false⟩] ∧
    ∃ out, calculate_position_changes
        [⟨"1", 1, none, false⟩, ⟨"2", 2, none, false⟩, ⟨"3", 3, none, false⟩]
        [⟨"1", 3, none, false⟩, ⟨"2", 2, none, false⟩, ⟨"4", 3, none, false⟩]
      = some out ∧
      out.map TopItem.id = ([⟨"1", 1, none, false⟩, ⟨"2", 2, none, false⟩,
        ⟨"3", 3, none, false⟩] : List TopItem).map TopItem.id :=
  C8_order_preservation_amended (by decide) (by decide) (by decide) (by decide)

/-- Claim C2 fails on the code: `update_refresh_token` binds the parameter tuple
`(user_id, refresh_token)` to the placeholders `SET refresh_token = %s
WHERE id = %s` in that order, so calling it with user_id 123 and token abc
leaves the credential row with id 123 untouched (first conjunct), while a
row whose id happens to equal the token abc gets its stored token
overwritten with the user id 123 (second conjunct).  The claim — and the
statement text of the SQL itself — requires the row with id 123 to receive
the token abc. -/
theorem C2_swapped_binding_eval :
    update_refresh_token false ⟨[⟨"123", "old"⟩], [], []⟩ "123" "abc"
      = .ok ⟨[⟨"123", "old"⟩], [], []⟩ ∧
    update_refresh_token false ⟨[⟨"abc", "old"⟩], [], []⟩ "123" "abc"
      = .ok ⟨[⟨"abc", "123"⟩], [], []⟩ :=
  ⟨rfl, rfl⟩

instance : IsTotal ItemRow (fun a b => a.position ≤ b.position) :=
  ⟨fun a b => le_total a.position b.position⟩

instance : IsTrans ItemRow (fun a b => a.position ≤ b.position) :=
  ⟨fun _ _ _ h1 h2 => le_trans h1 h2⟩

/-- Claim C6: the previous-snapshot read returns exactly the rows stored for the
(user, category, time range, date) key — a permutation of the matching
rows projected to (id, position), sorted by position ascending — and the
empty list, not an error, when no rows match; a connector failure, and
only a connector failure, surfaces as the service exception. -/
theorem C6_get_previous_contract (st : DBState) (user_id : String) (item_type : ItemType)
    (time_range : TimeRange) (collected_date : Int) :
    (∃ items, get_top_items false st user_id item_type time_range collected_date
        = .ok items ∧
      items.Perm (((st.table item_type).filter
          (rowMatches user_id time_range collected_date)).map
        fun r => { id := r.item_id, position := r.position }) ∧
      List.Sorted (fun a b : TopItem => a.position ≤ b.position) items ∧
      ((st.table item_type).filter (rowMatches user_id time_range collected_date) = [] →
        items = [])) ∧
    ∃ msg, get_top_items true st user_id item_type time_range collected_date
      = .error msg := by
  constructor
  · refine ⟨_, rfl, ?_, ?_, ?_⟩
    · exact (List.perm_insertionSort _ _).map _
    · have hs := List.sorted_insertionSort (fun a b : ItemRow => a.position ≤ b.position)
        ((st.table item_type).filter (rowMatches user_id time_range collected_date))
      exact List.pairwise_map.mpr hs
    · intro hnil
      rw [hnil]
      rfl
  · exact ⟨_, rfl⟩

/-- Witness for C6 at a concrete store holding two matching artist rows in
descending position order plus one non-matching row. -/
theorem C6_get_previous_contract_witness :
    (∃ items, get_top_items false
        ⟨[], [⟨"u", "a", 5, 2, none, false, "short_term"⟩,
              ⟨"u", "b", 5, 1, none, false, "short_term"⟩,
              ⟨"v", "c", 5, 1, none, false, "short_term"⟩], []⟩
        "u" .artist .short 5 = .ok items ∧
      items.Perm ((((⟨[], [⟨"u", "a", 5, 2, none, false, "short_term"⟩,
              ⟨"u", "b", 5, 1, none, false, "short_term"⟩,
              ⟨"v", "c", 5, 1, none, false, "short_term"⟩], []⟩ : DBState).table .artist).filter
          (rowMatches "u" .short 5)).map
        fun r => { id := r.item_id, position := r.position }) ∧
      List.Sorted (fun a b : TopItem => a.position ≤ b.position) items ∧
      (((⟨[], [⟨"u", "a", 5, 2, none, false, "short_term"⟩,
              ⟨"u", "b", 5, 1, none, false, "short_term"⟩,
              ⟨"v", "c", 5, 1, none, false, "short_term"⟩], []⟩ : DBState).table .artist).filter
          (rowMatches "u" .short 5) = [] → items = [])) ∧
    ∃ msg, get_top_items true
        ⟨[], [⟨"u", "a", 5, 2, none, false, "short_term"⟩,
              ⟨"u", "b", 5, 1, none, false, "short_term"⟩,
              ⟨"v", "c", 5, 1, none, false, "short_term"⟩], []⟩
        "u" .artist .short 5 = .error msg :=
  C6_get_previous_contract
    ⟨[], [⟨"u", "a", 5, 2, none, false, "short_term"⟩,
          ⟨"u", "b", 5, 1, none, false, "short_term"⟩,
          ⟨"v", "c", 5, 1, none, false, "short_term"⟩], []⟩
    "u" .artist .short 5

/-- Claim C4 fails on the code in its is_new clause: with an empty store (so the
previous-snapshot lookup for the shifted date returns the empty list), the
engine is indeed bypassed, but the row persisted for a freshly decoded item
carries is_new = false — the item's constructor default — not is_new = true
as the claim requires (position_change is absent as claimed). -/
theorem C4_counterexample :
    store_top_items_with_position_changes ⟨1, 7, 30⟩ (fun _ => false) ⟨[], [], []⟩ "u"
        [⟨"a", 1, none, false⟩] .artist .short 10
      = ⟨none, ⟨[], [⟨"u", "a", 10, 1, none, false, "short_term"⟩], []⟩,
         [.getPrev "u" .artist .short 9, .storeItems "u" .artist .short 10]⟩ ∧
    (store_top_items_with_position_changes ⟨1, 7, 30⟩ (fun _ => false) ⟨[], [], []⟩ "u"
        [⟨"a", 1, none, false⟩] .artist .short 10).state.top_artist.map ItemRow.is_new
      = [false] ∧
    [false] ≠ [true] :=
  ⟨by decide, by decide, by decide⟩

/-- Claim C4 amended: when the previous-snapshot lookup for the shifted date
matches no rows (and neither underlying operation fails), the rank-delta
engine is never invoked — the result is exactly the direct append of the
current items — and each item is persisted unchanged: its stored row keeps
the item's own position_change (absent by default) and is_new flag (false
by default, not true). -/
theorem C4_empty_previous_bypasses_engine_amended (cid : ComparisonIntervalDays)
    (oracle : DBOp → Bool) (st : DBState) (user_id : String) (top_items : List TopItem)
    (item_type : ItemType) (time_range : TimeRange) (collected_date : Int)
    (hg : oracle (.getPrev user_id item_type time_range
      (collected_date - cid.forRange time_range)) = false)
    (hs : oracle (.storeItems user_id item_type time_range collected_date) = false)
    (hempty : (st.table item_type).filter (rowMatches user_id time_range
      (collected_date - cid.forRange time_range)) = []) :
    store_top_items_with_position_changes cid oracle st user_id top_items item_type
        time_range collected_date
      = ⟨none, st.setTable item_type (st.table item_type ++
          top_items.map (storeRow user_id item_type time_range collected_date)),
         [.getPrev user_id item_type time_range (collected_date - cid.forRange time_range),
          .storeItems user_id item_type time_range collected_date]⟩ := by
  simp only [store_top_items_with_position_changes, hg, get_top_items, hempty, hs,
    store_top_items, List.insertionSort, List.map_nil, List.isEmpty_nil, if_true,
    if_false, Bool.false_eq_true]

/-- Witness for the amended C4: a two-item current list stored against an
empty store. -/
theorem C4_empty_previous_bypasses_engine_amended_witness :
    store_top_items_with_position_changes ⟨1, 7, 30⟩ (fun _ => false) ⟨[], [], []⟩ "u"
        [⟨"a", 1, none, false⟩, ⟨"b", 2, some 4, true⟩] .artist .short 10
      = ⟨none, (⟨[], [], []⟩ : DBState).setTable .artist
          (((⟨[], [], []⟩ : DBState).table .artist) ++
            ([⟨"a", 1, none, false⟩, ⟨"b", 2, some 4, true⟩] : List TopItem).map
              (storeRow "u" .artist .short 10)),
         [.getPrev "u" .artist .short 9, .storeItems "u" .artist .short 10]⟩ :=
  C4_empty_previous_bypasses_engine_amended ⟨1, 7, 30⟩ (fun _ => false) ⟨[], [], []⟩ "u"
    [⟨"a", 1, none, false⟩, ⟨"b", 2, some 4, true⟩] .artist .short 10 rfl rfl rfl

/-- Claim C5: if a refresh token is present and the credential update fails, the
invocation fails at once: the result is the credential error, the store
state is unchanged, and the trace holds only the failed credential update —
no previous-snapshot read and no snapshot store is attempted for any
triple. -/
theorem C5_credential_failure_blocks_stores (cid : ComparisonIntervalDays)
    (oracle : DBOp → Bool) (st : DBState) (data : UserSpotifyData) (collected_date : Int)
    (rt : String) (hrt : data.refresh_token = some rt)
    (hfail : oracle (.updateToken data.user_id rt) = true) :
    lambda_handler cid oracle st data collected_date
      = ⟨some "Failed to update user refresh token", st,
         [.updateToken data.user_id rt]⟩ := by
  simp only [lambda_handler, hrt, update_refresh_token, hfail, if_true]

/-- Witness for C5: a request with a refresh token and pending artist,
track, genre and emotion entries, run against an oracle that fails the
credential update. -/
theorem C5_credential_failure_blocks_stores_witness :
    lambda_handler ⟨1, 7, 30⟩ (fun op => decide (op = .updateToken "u" "r")) ⟨[], [], []⟩
      { user_id := "u", refresh_token := some "r",
        top_artists_data := [⟨[⟨"a", 1, none, false⟩], .short⟩],
        top_tracks_data := [⟨[⟨"t", 1, none, false⟩], .short⟩],
        top_genres_data := [⟨[⟨"g", 2⟩], .short⟩],
        top_emotions_data := [⟨[⟨"e", "0.3"⟩], .short⟩] } 10
      = ⟨some "Failed to update user refresh token", ⟨[], [], []⟩,
         [.updateToken "u" "r"]⟩ :=
  C5_credential_failure_blocks_stores ⟨1, 7, 30⟩
    (fun op => decide (op = .updateToken "u" "r")) ⟨[], [], []⟩
    { user_id := "u", refresh_token := some "r",
      top_artists_data := [⟨[⟨"a", 1, none, false⟩], .short⟩],
      top_tracks_data := [⟨[⟨"t", 1, none, false⟩], .short⟩],
      top_genres_data := [⟨[⟨"g", 2⟩], .short⟩],
      top_emotions_data := [⟨[⟨"e", "0.3"⟩], .short⟩] } 10 "r" rfl (by decide)

/-- The per-triple branch on the previous snapshot always selects a list to
store when the current list is non-empty: the direct list when the lookup
was empty, the engine output otherwise. -/
lemma store_branch_isSome (top_items prev : List TopItem) (hne : top_items ≠ []) :
    (if prev.isEmpty then some top_items
     else calculate_position_changes top_items prev).isSome := by
  have h5 : top_items.isEmpty = false := by
    cases top_items with
    | nil => exact absurd rfl hne
    | cons a l => rfl
  cases hP : prev.isEmpty
  · simp [calculate_position_changes, h5, hP]
  · simp

/-- A failing snapshot INSERT for one triple produces exactly the triple's
read followed by the single failed store attempt, leaves the store state
unchanged (the transaction rolled back), and surfaces the store error. -/
lemma store_triple_insert_failure (cid : ComparisonIntervalDays) (oracle : DBOp → Bool)
    (st : DBState) (user_id : String) (top_items : List TopItem) (item_type : ItemType)
    (time_range : TimeRange) (collected_date : Int)
    (hne : top_items ≠ [])
    (hg : oracle (.getPrev user_id item_type time_range
      (collected_date - cid.forRange time_range)) = false)
    (hs : oracle (.storeItems user_id item_type time_range collected_date) = true) :
    store_top_items_with_position_changes cid oracle st user_id top_items item_type
        time_range collected_date
      = ⟨some "Failed to store top items", st,
         [.getPrev user_id item_type time_range (collected_date - cid.forRange time_range),
          .storeItems user_id item_type time_range collected_date]⟩ := by
  obtain ⟨X, hX⟩ := Option.isSome_iff_exists.mp
    (store_branch_isSome top_items
      (((((st.table item_type).filter
          (rowMatches user_id time_range (collected_date - cid.forRange time_range))).insertionSort
        (fun a b => a.position ≤ b.position)).map
          fun r => ({ id := r.item_id, position := r.position } : TopItem))) hne)
  simp only [store_top_items_with_position_changes, hg, get_top_items, hX,
    store_top_items, hs, if_true, if_false, Bool.false_eq_true]

/-- Claim C7: with no refresh token, when the snapshot INSERT for the first
artist triple fails (its read having succeeded), the invocation reports
failure, the store state is unchanged — the in-flight transaction was
rolled back and nothing later was written — and the trace is exactly the
read plus the single failed store attempt for that triple: the triple is
not retried and no subsequent triple of the invocation is attempted. -/
theorem C7_store_failure_aborts_invocation (cid : ComparisonIntervalDays)
    (oracle : DBOp → Bool) (st : DBState) (data : UserSpotifyData) (collected_date : Int)
    (entry : RankedEntry) (rest : List RankedEntry)
    (hrt : data.refresh_token = none)
    (ha : data.top_artists_data = entry :: rest)
    (hne : entry.top_items ≠ [])
    (hg : oracle (.getPrev data.user_id .artist entry.time_range
      (collected_date - cid.forRange entry.time_range)) = false)
    (hs : oracle (.storeItems data.user_id .artist entry.time_range collected_date)
      = true) :
    lambda_handler cid oracle st data collected_date
      = ⟨some "Failed to store top items", st,
         [.getPrev data.user_id .artist entry.time_range
            (collected_date - cid.forRange entry.time_range),
          .storeItems data.user_id .artist entry.time_range collected_date]⟩ := by
  simp only [lambda_handler, hrt, lambda_handler_snapshots, ha, run_store_loop,
    store_triple_insert_failure cid oracle st data.user_id entry.top_items .artist
      entry.time_range collected_date hne hg hs]

/-- Witness for C7: the artist store fails while a second artist entry, a
track entry, a genre entry and an emotion entry are still pending; none of
them is attempted. -/
theorem C7_store_failure_aborts_invocation_witness :
    lambda_handler ⟨1, 7, 30⟩ (fun op => decide (op = .storeItems "u" .artist .short 10))
      ⟨[], [], []⟩
      { user_id := "u", refresh_token := none,
        top_artists_data := [⟨[⟨"a", 1, none, false⟩], .short⟩,
          ⟨[⟨"a2", 1, none, false⟩], .medium⟩],
        top_tracks_data := [⟨[⟨"t", 1, none, false⟩], .short⟩],
        top_genres_data := [⟨[⟨"g", 2⟩], .short⟩],
        top_emotions_data := [⟨[⟨"e", "0.3"⟩], .short⟩] } 10
      = ⟨some "Failed to store top items", ⟨[], [], []⟩,
         [.getPrev "u" .artist .short 9, .storeItems "u" .artist .short 10]⟩ :=
  C7_store_failure_aborts_invocation ⟨1, 7, 30⟩
    (fun op => decide (op = .storeItems "u" .artist .short 10)) ⟨[], [], []⟩
    { user_id := "u", refresh_token := none,
      top_artists_data := [⟨[⟨"a", 1, none, false⟩], .short⟩,
        ⟨[⟨"a2", 1, none, false⟩], .medium⟩],
      top_tracks_data := [⟨[⟨"t", 1, none, false⟩], .short⟩],
      top_genres_data := [⟨[⟨"g", 2⟩], .short⟩],
      top_emotions_data := [⟨[⟨"e", "0.3"⟩], .short⟩] } 10
    ⟨[⟨"a", 1, none, false⟩], .short⟩ [⟨[⟨"a2", 1, none, false⟩], .medium⟩]
    rfl rfl (by decide) (by decide) (by decide)

/-- Claim C3 fails on the code: `lambda_handler` iterates
`db_service.store_top_genres` and `db_service.store_top_emotions`, but
`DBService` defines neither method, so a well-formed request carrying one
entry per category fails with `AttributeError` at the first genre entry —
after the artist and track triples were stored — and no genre or emotion
row-set is ever written (no genre or emotion table is touched by any code
in `src/src/db_service.py`).  The invocation does not terminate
successfully as claimed. -/
theorem C3_missing_store_methods_eval :
    lambda_handler ⟨1, 7, 30⟩ (fun _ => false) ⟨[], [], []⟩
      { user_id := "u", refresh_token := some "r",
        top_artists_data := [⟨[⟨"a", 1, none, false⟩], .short⟩],
        top_tracks_data := [⟨[⟨"t", 1, none, false⟩], .short⟩],
        top_genres_data := [⟨[⟨"g", 2⟩], .short⟩],
        top_emotions_data := [⟨[⟨"e", "0.3"⟩], .short⟩] } 10
    = ⟨some "AttributeError: DBService object has no attribute store_top_genres",
       ⟨[], [⟨"u", "a", 10, 1, none, false, "short_term"⟩],
        [⟨"u", "t", 10, 1, none, false, "short_term"⟩]⟩,
       [.updateToken "u" "r",
        .getPrev "u" .artist .short 9, .storeItems "u" .artist .short 10,
        .getPrev "u" .track .short 9, .storeItems "u" .track .short 10]⟩ := by decide

/-- Claim C9 fails on the code: decoding an event whose only time_range value is
the unknown string weekly succeeds — no validation error naming the value
is raised anywhere in `extract_user_spotify_data_from_event` — and the
decoded request handed to the store steps carries the raw string weekly,
even though it is not a member of the `TimeRange` enum (third conjunct). -/
theorem C9_no_time_range_validation_eval :
    extract_user_spotify_data_from_event
      ⟨[⟨"u", none, [⟨"weekly", [⟨"a", 1⟩]⟩], [], [], []⟩]⟩
      = .ok (⟨"u", none, [⟨"weekly", [⟨"a", 1⟩]⟩], [], [], []⟩ : UserSpotifyDataRaw) ∧
    (⟨"u", none, [⟨"weekly", [⟨"a", 1⟩]⟩], [], [], []⟩ :
        UserSpotifyDataRaw).top_artists_data.map RawRankedSection.time_range
      = ["weekly"] ∧
    TimeRange.ofString? "weekly" = none :=
  ⟨rfl, rfl, rfl⟩

end SpotifyLambda
